import Mathlib

/-!
# Status-heart reporter (`statusheart/statusheart.go`)

A shallow embedding of the status-heart reporting service of go-btfs:
`ReportStatus`, `CheckReportStatus`, `New`, `Init` and the scheduler loop
`cycleCheckReport`.

Modelling conventions.

* A Go function with side effects becomes a pure function that returns its Go
  results together with the ordered list of the externally visible actions it
  performed (`Run.trace`).  Every modelled function records its own entry and
  exit, so invocations can be counted in a trace.
* A Go `error` result is an `Option GoError` (`none` is `nil`).  A Go call that
  returns `(v, err)` returns a pair; nothing is assumed about `v` when
  `err` is not `nil`.
* The collaborators that are not part of this file (the ABI encoder, the
  transaction service, `common.HexToAddress`) are parameters.
* The diagnostic `fmt.Println` calls write to standard output only and do not
  influence control flow; they are not recorded in traces.
-/

namespace StatusHeart

/-! ## Data model -/

/-- Go `error` values. -/
structure GoError where
  text : String
deriving DecidableEq, Repr

/-- The type `common.Address`: an account address, given by its bytes. -/
structure Address where
  bytes : List Nat
deriving DecidableEq, Repr

/-- The type `common.Hash`, given by its value as a 256-bit word; `common.Hash{}`
is the all-zero hash. -/
structure Hash where
  word : Nat
deriving DecidableEq, Repr

/-- The Go value `common.Hash{}`. -/
def Hash.zero : Hash := ⟨0⟩

/-- Modelled from the spec: the type of `spin.GSignedInfo` (package `spin` is
not in this file).  The fields are the ones `ReportStatus` reads; the three
times/counters are `uint32`, the others are strings. -/
structure SignedInfo where
  Peer : String
  CreatedTime : Nat
  Version : String
  Nonce : Nat
  BttcAddress : String
  SignedTime : Nat
  Signature : String
deriving DecidableEq, Repr

/-- A typed argument handed to the ABI encoder; the constructor is the Go type
of the argument value. -/
inductive ABIValue where
  | string (s : String)
  | uint32 (n : Nat)
  | address (a : Address)
  | bytes (b : List Nat)
deriving DecidableEq, Repr

/-- Modelled from the spec: `transaction.TxRequest` (package `transaction` is
not in this file), with the four fields `ReportStatus` sets.  `To` and
`Value` are pointers in Go; `ReportStatus` always sets them. -/
structure TxRequest where
  To : Address
  Data : List Nat
  Value : Int
  Description : String
deriving DecidableEq, Repr

/-- Modelled from the spec: the part of `transaction.Service` that
`ReportStatus` uses.  `Send` is the behaviour of the gateway at the moment
of the call: the hash and error it returns for a request. -/
structure TransactionService where
  Send : TxRequest → Hash × Option GoError

/-- The struct `service`. -/
structure service where
  statusAddress : Address
  transactionService : TransactionService

/-- The library functions and package-level values `ReportStatus` relies on:
`common.HexToAddress` and the method `Pack` of `statusABI`. -/
structure Externals where
  HexToAddress : String → Address
  Pack : String → List ABIValue → List Nat × Option GoError

/-- A call that is the body of a goroutine. -/
inductive GoCall where
  | cycleCheckReport
deriving DecidableEq, Repr

/-- A goroutine started by a `go func() { ... }()` statement: whether the
function literal installs the deferred `recover` handler, and the calls in
its body, in order. -/
structure Goroutine where
  deferRecover : Bool
  body : List GoCall
deriving DecidableEq, Repr

/-- Externally visible actions. -/
inductive Event where
  | enter (fn : String)
  | leave (fn : String)
  | pack (method : String) (args : List ABIValue)
  | send (request : TxRequest)
  | go (task : Goroutine)
  | logErrorf (format : String) (err : GoError)
  | newTicker (seconds : Nat)
  | recvTick
  | tickStop
deriving DecidableEq, Repr

/-- The Go results of a call together with the actions it performed. -/
structure Run (α : Type) where
  value : α
  trace : List Event

/-! ## Go standard library: `strings.Replace` and `hex.DecodeString` -/

/-- Worker of `stringsReplace`: `skip` is the number of characters of a match
still to be dropped. -/
def replaceGo (old new : List Char) : Nat → List Char → List Char
  | _, [] => []
  | skip + 1, _ :: cs => replaceGo old new skip cs
  | 0, c :: cs =>
    if old.length ≤ (c :: cs).length ∧ (c :: cs).take old.length = old then
      new ++ replaceGo old new (old.length - 1) cs
    else
      c :: replaceGo old new 0 cs

/-- The call `strings.Replace(s, old, new, -1)` for a non-empty `old`: every
non-overlapping occurrence of `old`, found from left to right, is replaced. -/
def stringsReplace (s old new : String) : String :=
  ⟨replaceGo old.data new.data 0 s.data⟩

/-- The table `reverseHexTable` of `encoding/hex`: the value of a hexadecimal
digit, `none` for every other character. -/
def fromHexChar (c : Char) : Option Nat :=
  if '0' ≤ c ∧ c ≤ '9' then some (c.toNat - '0'.toNat)
  else if 'a' ≤ c ∧ c ≤ 'f' then some (c.toNat - 'a'.toNat + 10)
  else if 'A' ≤ c ∧ c ≤ 'F' then some (c.toNat - 'A'.toNat + 10)
  else none

/-- The two errors of `encoding/hex`. -/
inductive HexError where
  | invalidByte (c : Char)
  | errLength
deriving DecidableEq, Repr

/-- The function `hex.Decode` on the characters of the input: the bytes decoded
before the first error, and the error.  Pairs of digits are decoded from the
left; a pair with a non-digit stops the decoding; a single trailing character
is reported as an invalid byte if it is not a digit and as `ErrLength`
otherwise. -/
def hexDecode : List Char → List Nat × Option HexError
  | [] => ([], none)
  | [p] =>
    match fromHexChar p with
    | none => ([], some (.invalidByte p))
    | some _ => ([], some .errLength)
  | p :: q :: rest =>
    match fromHexChar p, fromHexChar q with
    | none, _ => ([], some (.invalidByte p))
    | some _, none => ([], some (.invalidByte q))
    | some a, some b =>
      let r := hexDecode rest
      ((a * 16 + b) :: r.1, r.2)

/-- The function `hex.DecodeString`: the decoded bytes and the error; on malformed
input the bytes are those decoded before the error. -/
def hexDecodeString (s : String) : List Nat × Option HexError :=
  hexDecode s.data

/-- The text of a signature without its leading "0x" marker, when it has one. -/
def stripMarker (cs : List Char) : List Char :=
  if cs.take 2 = ['0', 'x'] then cs.drop 2 else cs

/-- The bytes written by a text of hexadecimal digits: defined exactly when the
text is an even number of hexadecimal digits. -/
def strictHex : List Char → Option (List Nat)
  | [] => some []
  | [_] => none
  | p :: q :: rest =>
    match fromHexChar p, fromHexChar q, strictHex rest with
    | some a, some b, some r => some ((a * 16 + b) :: r)
    | _, _, _ => none

/-- The signature argument as the specification words it (not taken from the
code): the bytes obtained by hex-decoding the Signature text with its "0x"
marker removed.  It is defined only for a signature that is valid hexadecimal
once the marker is removed. -/
def specSignatureBytes (signature : String) : Option (List Nat) :=
  strictHex (stripMarker signature.data)

/-! ## The service -/

/-- The constant `ReportStatusTime`, in seconds. -/
def ReportStatusTime : Nat := 10

/-- The constant `statusHeartAddress`. -/
def statusHeartAddress : String := "0xE42016a68511BFfdcE74E04DD35DCD7bf75582c8"

/-- The goroutine started at the end of a successful `ReportStatus`: a function
literal whose only statement is the deferred `recover` handler. -/
def reportGoroutine : Goroutine := ⟨true, []⟩

/-- The arguments `ReportStatus` hands to `statusABI.Pack` after the method
name. -/
def reportArgs (ext : Externals) (g : SignedInfo) : List ABIValue :=
  let peer := g.Peer
  let createTime := g.CreatedTime
  let version := g.Version
  let num := g.Nonce
  let bttcAddress := ext.HexToAddress g.BttcAddress
  let signedTime := g.SignedTime
  -- `signature, err := hex.DecodeString(...)`: `err` is assigned again by the
  -- call of `Pack` before it is read
  let decoded := hexDecodeString (stringsReplace g.Signature "0x" "")
  let signature := decoded.1
  [.string peer, .uint32 createTime, .string version, .uint32 num,
   .address bttcAddress, .uint32 signedTime, .bytes signature]

/-- The method `(*service).ReportStatus`, run with `spin.GSignedInfo = g`. -/
def ReportStatus (ext : Externals) (g : SignedInfo) (s : service) :
    Run (Hash × Option GoError) :=
  if g.Peer.length ≤ 0 then
    ⟨(Hash.zero, none), [.enter "ReportStatus", .leave "ReportStatus"]⟩
  else
    let args := reportArgs ext g
    let packed := ext.Pack "reportStatus" args
    let callData := packed.1
    match packed.2 with
    | some err =>
      ⟨(Hash.zero, some err),
        [.enter "ReportStatus", .pack "reportStatus" args, .leave "ReportStatus"]⟩
    | none =>
      let request : TxRequest :=
        { To := s.statusAddress
          Data := callData
          Value := 0
          Description := "Report Heart Status" }
      let sent := s.transactionService.Send request
      let txHash := sent.1
      match sent.2 with
      | some err =>
        ⟨(Hash.zero, some err),
          [.enter "ReportStatus", .pack "reportStatus" args, .send request,
           .leave "ReportStatus"]⟩
      | none =>
        ⟨(txHash, none),
          [.enter "ReportStatus", .pack "reportStatus" args, .send request,
           .go reportGoroutine, .leave "ReportStatus"]⟩

/-- The method `(*service).CheckReportStatus`, run with `spin.GSignedInfo = g`. -/
def CheckReportStatus (ext : Externals) (g : SignedInfo) (s : service) :
    Run (Option GoError) :=
  let r := ReportStatus ext g s
  match r.value.2 with
  | some err =>
    ⟨some err,
      [.enter "CheckReportStatus"] ++ r.trace ++
        [.logErrorf "ReportStatus err:%+v" err, .leave "CheckReportStatus"]⟩
  | none =>
    ⟨none, [.enter "CheckReportStatus"] ++ r.trace ++ [.leave "CheckReportStatus"]⟩

/-! ## Construction, initialisation and the scheduler loop -/

/-- The goroutine started by `New`: `go func() { cycleCheckReport() }()`. -/
def cycleGoroutine : Goroutine := ⟨false, [.cycleCheckReport]⟩

/-- The function `New`.  The returned service is also the new value of the
package variable `serv`. -/
def New (statusAddress : Address) (transactionService : TransactionService) :
    Run service :=
  let serv : service :=
    { statusAddress := statusAddress
      transactionService := transactionService }
  ⟨serv, [.enter "New", .go cycleGoroutine, .leave "New"]⟩

/-- The function `Init`, where `g` is `spin.GSignedInfo` during the startup
check. -/
def Init (ext : Externals) (g : SignedInfo) (transactionService : TransactionService) :
    Run (Option GoError) :=
  if statusHeartAddress = "" then
    ⟨some ⟨"no known status heart address for this network"⟩,
      [.enter "Init", .leave "Init"]⟩
  else
    let currentAddress := ext.HexToAddress statusHeartAddress
    let statusHeart := New currentAddress transactionService
    let c := CheckReportStatus ext g statusHeart.value
    match c.value with
    | some err =>
      ⟨some err, [.enter "Init"] ++ statusHeart.trace ++ c.trace ++ [.leave "Init"]⟩
    | none =>
      ⟨none, [.enter "Init"] ++ statusHeart.trace ++ c.trace ++ [.leave "Init"]⟩

/-- The package variables a scheduler iteration reads: `spin.GSignedInfo` and
`serv` (with the behaviour of its transaction service at that moment). -/
structure Globals where
  GSignedInfo : SignedInfo
  serv : service

/-- Where a goroutine that runs a ticker loop stands once the ticks delivered
so far are used up: blocked in the receive `<-tick.C`, or past the loop. -/
inductive LoopStatus where
  | awaitingTick
  | returned
deriving DecidableEq, Repr

/-- The statement `for ; cond; <-tick.C { body }` when `ticks` ticks are
delivered: the condition is tested, the body runs, and the post statement
receives the next tick.  `body k` is the trace of iteration `k`; the result is
the status reached and the trace of the loop from iteration `iter` on. -/
def forTicks (cond : Bool) (body : Nat → List Event) :
    Nat → Nat → LoopStatus × List Event
  | 0, iter =>
    if cond then (.awaitingTick, body iter) else (.returned, [])
  | t + 1, iter =>
    if cond then
      let r := forTicks cond body t (iter + 1)
      (r.1, body iter ++ [.recvTick] ++ r.2)
    else (.returned, [])

/-- The body of the loop of `cycleCheckReport` in iteration `k`. -/
def cycleBody (ext : Externals) (observe : Nat → Globals) (k : Nat) : List Event :=
  let c := CheckReportStatus ext (observe k).GSignedInfo (observe k).serv
  match c.value with
  | some _ => c.trace -- `continue`
  | none => c.trace

/-- The function `cycleCheckReport` when `ticks` ticks are delivered, where
`observe k` are the package variables as iteration `k` reads them. -/
def cycleCheckReport (ext : Externals) (observe : Nat → Globals) (ticks : Nat) :
    LoopStatus × List Event :=
  let r := forTicks true (cycleBody ext observe) ticks 0
  match r.1 with
  | .awaitingTick =>
    (.awaitingTick, [.enter "cycleCheckReport", .newTicker ReportStatusTime] ++ r.2)
  | .returned =>
    (.returned, [.enter "cycleCheckReport", .newTicker ReportStatusTime] ++ r.2 ++
      [.tickStop, .leave "cycleCheckReport"])

/-- The goroutines a trace starts, in order. -/
def spawned : List Event → List Goroutine
  | [] => []
  | .go task :: rest => task :: spawned rest
  | _ :: rest => spawned rest

/-- The calls of `statusABI.Pack` in a trace, in order. -/
def packCalls : List Event → List (String × List ABIValue)
  | [] => []
  | .pack method args :: rest => (method, args) :: packCalls rest
  | _ :: rest => packCalls rest

/-- The requests handed to `Send` in a trace, in order. -/
def sendCalls : List Event → List TxRequest
  | [] => []
  | .send request :: rest => request :: sendCalls rest
  | _ :: rest => sendCalls rest

/-- The number of invocations of the function `fn` in a trace. -/
def invocations (fn : String) (t : List Event) : Nat :=
  t.count (.enter fn)

/-- The two goroutines of a node after `Init`: the trace of the caller of
`Init`, and the trace of the scheduler goroutine (empty when `Init` started
none). -/
structure Process where
  main : List Event
  scheduler : List Event

/-- A node that calls `Init` and then receives `ticks` period ticks: `g` is
`spin.GSignedInfo` during the startup check and `observe k` are the package
variables in iteration `k` of the scheduler. -/
def startup (ext : Externals) (g : SignedInfo) (transactionService : TransactionService)
    (observe : Nat → Globals) (ticks : Nat) : Process :=
  let i := Init ext g transactionService
  { main := i.trace
    scheduler :=
      if cycleGoroutine ∈ spawned i.trace then (cycleCheckReport ext observe ticks).2
      else [] }

/-! ## Sample collaborators and snapshots -/

/-- A sample address parser: the bytes written after the marker. -/
def sampleHexToAddress (s : String) : Address :=
  ⟨(hexDecodeString (stringsReplace s "0x" "")).1⟩

/-- A sample encoder that checks the method name and the argument types of
`reportStatus` and returns the signature bytes after a one-byte selector. -/
def samplePack (method : String) (args : List ABIValue) : List Nat × Option GoError :=
  match args with
  | [.string _, .uint32 _, .string _, .uint32 _, .address _, .uint32 _, .bytes b] =>
    if method = "reportStatus" then (1 :: b, none)
    else ([], some ⟨"method not found"⟩)
  | _ => ([], some ⟨"argument mismatch"⟩)

/-- Sample library functions. -/
def sampleExt : Externals := ⟨sampleHexToAddress, samplePack⟩

/-- Library functions whose encoder rejects every call. -/
def failingExt : Externals :=
  ⟨sampleHexToAddress, fun _ _ => ([9], some ⟨"pack failed"⟩)⟩

/-- A gateway that accepts every request and answers with hash 7. -/
def acceptingGateway : TransactionService := ⟨fun _ => (⟨7⟩, none)⟩

/-- A gateway that rejects every request. -/
def rejectingGateway : TransactionService := ⟨fun _ => (⟨7⟩, some ⟨"send failed"⟩)⟩

/-- A sample service with an accepting gateway. -/
def sampleService : service := ⟨⟨[1, 2]⟩, acceptingGateway⟩

/-- A sample service with a rejecting gateway. -/
def rejectedService : service := ⟨⟨[1, 2]⟩, rejectingGateway⟩

/-- A populated identity. -/
def sampleInfo : SignedInfo :=
  { Peer := "p1", CreatedTime := 100, Version := "1.0", Nonce := 1,
    BttcAddress := "0x0a0b", SignedTime := 200, Signature := "0x0aff" }

/-- An identity that is not yet established. -/
def emptyInfo : SignedInfo :=
  { Peer := "", CreatedTime := 0, Version := "", Nonce := 0,
    BttcAddress := "", SignedTime := 0, Signature := "" }

/-- A populated identity whose signature is not hexadecimal. -/
def malformedInfo : SignedInfo :=
  { Peer := "p1", CreatedTime := 100, Version := "1.0", Nonce := 1,
    BttcAddress := "0x0a0b", SignedTime := 200, Signature := "0xzz" }

/-- A populated identity whose signature has an odd number of digits. -/
def oddInfo : SignedInfo :=
  { Peer := "p1", CreatedTime := 100, Version := "1.0", Nonce := 1,
    BttcAddress := "0x0a0b", SignedTime := 200, Signature := "0xabc" }

/-- Package variables that never change: the sample identity and service. -/
def sampleObserve : Nat → Globals := fun _ => ⟨sampleInfo, sampleService⟩

/-! ## Helper lemmas -/

/-- The Go test `len(s) <= 0` holds exactly for the empty string. -/
theorem length_le_zero_iff (s : String) : s.length ≤ 0 ↔ s = "" := by
  constructor
  · intro h
    have h0 : s.data.length = 0 := Nat.le_zero.mp h
    apply String.ext
    exact List.length_eq_zero.mp h0
  · intro h
    subst h
    decide

/-- The run of `ReportStatus` when the Peer is empty. -/
theorem reportStatus_of_empty (ext : Externals) (g : SignedInfo) (s : service)
    (h : g.Peer = "") :
    ReportStatus ext g s =
      ⟨(Hash.zero, none), [.enter "ReportStatus", .leave "ReportStatus"]⟩ := by
  have h0 : g.Peer.length ≤ 0 := (length_le_zero_iff _).mpr h
  unfold ReportStatus
  rw [if_pos h0]

/-- The run of `ReportStatus` when the Peer is set and `Pack` returns an error. -/
theorem reportStatus_of_pack_error (ext : Externals) (g : SignedInfo) (s : service)
    (h : g.Peer ≠ "") (e : GoError)
    (hp : (ext.Pack "reportStatus" (reportArgs ext g)).2 = some e) :
    ReportStatus ext g s =
      ⟨(Hash.zero, some e),
        [.enter "ReportStatus", .pack "reportStatus" (reportArgs ext g),
         .leave "ReportStatus"]⟩ := by
  have h0 : ¬ g.Peer.length ≤ 0 := fun hl => h ((length_le_zero_iff _).mp hl)
  unfold ReportStatus
  rw [if_neg h0]
  simp only [hp]

/-- The run of `ReportStatus` when `Pack` succeeds and `Send` returns an error. -/
theorem reportStatus_of_send_error (ext : Externals) (g : SignedInfo) (s : service)
    (h : g.Peer ≠ "") (e : GoError)
    (hp : (ext.Pack "reportStatus" (reportArgs ext g)).2 = none)
    (hs : (s.transactionService.Send
      { To := s.statusAddress
        Data := (ext.Pack "reportStatus" (reportArgs ext g)).1
        Value := 0
        Description := "Report Heart Status" }).2 = some e) :
    ReportStatus ext g s =
      ⟨(Hash.zero, some e),
        [.enter "ReportStatus", .pack "reportStatus" (reportArgs ext g),
         .send
          { To := s.statusAddress
            Data := (ext.Pack "reportStatus" (reportArgs ext g)).1
            Value := 0
            Description := "Report Heart Status" },
         .leave "ReportStatus"]⟩ := by
  have h0 : ¬ g.Peer.length ≤ 0 := fun hl => h ((length_le_zero_iff _).mp hl)
  unfold ReportStatus
  rw [if_neg h0]
  simp only [hp, hs]

/-- The run of `ReportStatus` when `Pack` and `Send` both succeed. -/
theorem reportStatus_of_send_ok (ext : Externals) (g : SignedInfo) (s : service)
    (h : g.Peer ≠ "")
    (hp : (ext.Pack "reportStatus" (reportArgs ext g)).2 = none)
    (hs : (s.transactionService.Send
      { To := s.statusAddress
        Data := (ext.Pack "reportStatus" (reportArgs ext g)).1
        Value := 0
        Description := "Report Heart Status" }).2 = none) :
    ReportStatus ext g s =
      ⟨((s.transactionService.Send
          { To := s.statusAddress
            Data := (ext.Pack "reportStatus" (reportArgs ext g)).1
            Value := 0
            Description := "Report Heart Status" }).1, none),
        [.enter "ReportStatus", .pack "reportStatus" (reportArgs ext g),
         .send
          { To := s.statusAddress
            Data := (ext.Pack "reportStatus" (reportArgs ext g)).1
            Value := 0
            Description := "Report Heart Status" },
         .go reportGoroutine, .leave "ReportStatus"]⟩ := by
  have h0 : ¬ g.Peer.length ≤ 0 := fun hl => h ((length_le_zero_iff _).mp hl)
  unfold ReportStatus
  rw [if_neg h0]
  simp only [hp, hs]

/-- Every trace of `ReportStatus` holds exactly one entry of `ReportStatus`. -/
theorem reportStatus_enter_count (ext : Externals) (g : SignedInfo) (s : service) :
    invocations "ReportStatus" (ReportStatus ext g s).trace = 1 := by
  by_cases h : g.Peer = ""
  · rw [reportStatus_of_empty ext g s h]
    simp [invocations]
  · cases hp : (ext.Pack "reportStatus" (reportArgs ext g)).2 with
    | some e =>
      rw [reportStatus_of_pack_error ext g s h e hp]
      simp [invocations]
    | none =>
      cases hs : (s.transactionService.Send
          { To := s.statusAddress
            Data := (ext.Pack "reportStatus" (reportArgs ext g)).1
            Value := 0
            Description := "Report Heart Status" }).2 with
      | some e =>
        rw [reportStatus_of_send_error ext g s h e hp hs]
        simp [invocations]
      | none =>
        rw [reportStatus_of_send_ok ext g s h hp hs]
        simp [invocations]

/-- No trace of `ReportStatus` holds an entry of `CheckReportStatus`. -/
theorem reportStatus_no_check_enter (ext : Externals) (g : SignedInfo) (s : service) :
    invocations "CheckReportStatus" (ReportStatus ext g s).trace = 0 := by
  by_cases h : g.Peer = ""
  · rw [reportStatus_of_empty ext g s h]
    simp [invocations]
  · cases hp : (ext.Pack "reportStatus" (reportArgs ext g)).2 with
    | some e =>
      rw [reportStatus_of_pack_error ext g s h e hp]
      simp [invocations]
    | none =>
      cases hs : (s.transactionService.Send
          { To := s.statusAddress
            Data := (ext.Pack "reportStatus" (reportArgs ext g)).1
            Value := 0
            Description := "Report Heart Status" }).2 with
      | some e =>
        rw [reportStatus_of_send_error ext g s h e hp hs]
        simp [invocations]
      | none =>
        rw [reportStatus_of_send_ok ext g s h hp hs]
        simp [invocations]

/-- The run of `CheckReportStatus` when `ReportStatus` returns an error. -/
theorem checkReportStatus_of_error (ext : Externals) (g : SignedInfo) (s : service)
    (e : GoError) (hr : (ReportStatus ext g s).value.2 = some e) :
    CheckReportStatus ext g s =
      ⟨some e,
        [.enter "CheckReportStatus"] ++ (ReportStatus ext g s).trace ++
          [.logErrorf "ReportStatus err:%+v" e, .leave "CheckReportStatus"]⟩ := by
  unfold CheckReportStatus
  simp only [hr]

/-- The run of `CheckReportStatus` when `ReportStatus` returns no error. -/
theorem checkReportStatus_of_ok (ext : Externals) (g : SignedInfo) (s : service)
    (hr : (ReportStatus ext g s).value.2 = none) :
    CheckReportStatus ext g s =
      ⟨none,
        [.enter "CheckReportStatus"] ++ (ReportStatus ext g s).trace ++
          [.leave "CheckReportStatus"]⟩ := by
  unfold CheckReportStatus
  simp only [hr]

/-! ## Traces of `CheckReportStatus`, `Init` and the scheduler loop -/

/-- The projection `sendCalls` distributes over concatenation. -/
theorem sendCalls_append (l₁ l₂ : List Event) :
    sendCalls (l₁ ++ l₂) = sendCalls l₁ ++ sendCalls l₂ := by
  induction l₁ with
  | nil => rfl
  | cons e l ih => cases e <;> simp [sendCalls, ih]

/-- The projection `spawned` distributes over concatenation. -/
theorem spawned_append (l₁ l₂ : List Event) :
    spawned (l₁ ++ l₂) = spawned l₁ ++ spawned l₂ := by
  induction l₁ with
  | nil => rfl
  | cons e l ih => cases e <;> simp [spawned, ih]

/-- With a Peer and a successful encoding, `ReportStatus` hands exactly one request to `Send`. -/
theorem reportStatus_sendCalls (ext : Externals) (g : SignedInfo) (s : service)
    (h : g.Peer ≠ "")
    (hp : (ext.Pack "reportStatus" (reportArgs ext g)).2 = none) :
    sendCalls (ReportStatus ext g s).trace =
      [{ To := s.statusAddress
         Data := (ext.Pack "reportStatus" (reportArgs ext g)).1
         Value := 0
         Description := "Report Heart Status" }] := by
  cases hs : (s.transactionService.Send
      { To := s.statusAddress
        Data := (ext.Pack "reportStatus" (reportArgs ext g)).1
        Value := 0
        Description := "Report Heart Status" }).2 with
  | some e =>
    rw [reportStatus_of_send_error ext g s h e hp hs]
    simp [sendCalls]
  | none =>
    rw [reportStatus_of_send_ok ext g s h hp hs]
    simp [sendCalls]

/-- A run of `ReportStatus` that returns an error starts no goroutine. -/
theorem reportStatus_spawned_of_error (ext : Externals) (g : SignedInfo) (s : service)
    (e : GoError) (hr : (ReportStatus ext g s).value.2 = some e) :
    spawned (ReportStatus ext g s).trace = [] := by
  by_cases h : g.Peer = ""
  · rw [reportStatus_of_empty ext g s h]
    simp [spawned]
  · cases hp : (ext.Pack "reportStatus" (reportArgs ext g)).2 with
    | some e1 =>
      rw [reportStatus_of_pack_error ext g s h e1 hp]
      simp [spawned]
    | none =>
      cases hs : (s.transactionService.Send
          { To := s.statusAddress
            Data := (ext.Pack "reportStatus" (reportArgs ext g)).1
            Value := 0
            Description := "Report Heart Status" }).2 with
      | some e1 =>
        rw [reportStatus_of_send_error ext g s h e1 hp hs]
        simp [spawned]
      | none =>
        rw [reportStatus_of_send_ok ext g s h hp hs] at hr
        cases hr

/-- The requests `CheckReportStatus` hands to `Send` are those of its `ReportStatus` call. -/
theorem checkReportStatus_sendCalls (ext : Externals) (g : SignedInfo) (s : service) :
    sendCalls (CheckReportStatus ext g s).trace = sendCalls (ReportStatus ext g s).trace := by
  cases hr : (ReportStatus ext g s).value.2 with
  | none =>
    rw [checkReportStatus_of_ok ext g s hr]
    simp [sendCalls_append, sendCalls]
  | some e =>
    rw [checkReportStatus_of_error ext g s e hr]
    simp [sendCalls_append, sendCalls]

/-- The goroutines `CheckReportStatus` starts are those of its `ReportStatus` call. -/
theorem checkReportStatus_spawned (ext : Externals) (g : SignedInfo) (s : service) :
    spawned (CheckReportStatus ext g s).trace = spawned (ReportStatus ext g s).trace := by
  cases hr : (ReportStatus ext g s).value.2 with
  | none =>
    rw [checkReportStatus_of_ok ext g s hr]
    simp [spawned_append, spawned]
  | some e =>
    rw [checkReportStatus_of_error ext g s e hr]
    simp [spawned_append, spawned]

/-- The result of `CheckReportStatus` is the error result of `ReportStatus`. -/
theorem checkReportStatus_value (ext : Externals) (g : SignedInfo) (s : service) :
    (CheckReportStatus ext g s).value = (ReportStatus ext g s).value.2 := by
  cases hr : (ReportStatus ext g s).value.2 with
  | none => rw [checkReportStatus_of_ok ext g s hr]
  | some e => rw [checkReportStatus_of_error ext g s e hr]

/-- Every trace of `CheckReportStatus` holds exactly one entry of `CheckReportStatus`. -/
theorem checkReportStatus_enter_count (ext : Externals) (g : SignedInfo) (s : service) :
    invocations "CheckReportStatus" (CheckReportStatus ext g s).trace = 1 := by
  have h0 := reportStatus_no_check_enter ext g s
  unfold invocations at h0
  cases hr : (ReportStatus ext g s).value.2 with
  | none =>
    rw [checkReportStatus_of_ok ext g s hr]
    simp [invocations, List.count_cons, List.count_append, h0]
  | some e =>
    rw [checkReportStatus_of_error ext g s e hr]
    simp [invocations, List.count_cons, List.count_append, h0]

/-- No trace of `CheckReportStatus` holds the receive of a tick. -/
theorem checkReportStatus_no_tick (ext : Externals) (g : SignedInfo) (s : service) :
    (CheckReportStatus ext g s).trace.count .recvTick = 0 := by
  have h0 : (ReportStatus ext g s).trace.count .recvTick = 0 := by
    by_cases h : g.Peer = ""
    · rw [reportStatus_of_empty ext g s h]
      simp
    · cases hp : (ext.Pack "reportStatus" (reportArgs ext g)).2 with
      | some e =>
        rw [reportStatus_of_pack_error ext g s h e hp]
        simp
      | none =>
        cases hs : (s.transactionService.Send
            { To := s.statusAddress
              Data := (ext.Pack "reportStatus" (reportArgs ext g)).1
              Value := 0
              Description := "Report Heart Status" }).2 with
        | some e =>
          rw [reportStatus_of_send_error ext g s h e hp hs]
          simp
        | none =>
          rw [reportStatus_of_send_ok ext g s h hp hs]
          simp
  cases hr : (ReportStatus ext g s).value.2 with
  | none =>
    rw [checkReportStatus_of_ok ext g s hr]
    simp [List.count_cons, List.count_append, h0]
  | some e =>
    rw [checkReportStatus_of_error ext g s e hr]
    simp [List.count_cons, List.count_append, h0]

/-- Both branches of the loop body leave the trace of the check. -/
theorem cycleBody_eq (ext : Externals) (observe : Nat → Globals) (k : Nat) :
    cycleBody ext observe k =
      (CheckReportStatus ext (observe k).GSignedInfo (observe k).serv).trace := by
  unfold cycleBody
  simp only []
  split <;> rfl

/-- A ticker loop whose condition is `true` is blocked in a receive once the ticks are used up. -/
theorem forTicks_true_status (body : Nat → List Event) (t iter : Nat) :
    (forTicks true body t iter).1 = .awaitingTick := by
  induction t generalizing iter with
  | zero => simp [forTicks]
  | succ t ih => simp [forTicks, ih]

/-- The trace of a ticker loop whose condition is `true`: each of the first `t` iterations is followed by the receive of a tick, and one more iteration follows. -/
theorem forTicks_true_trace (body : Nat → List Event) (t iter : Nat) :
    (forTicks true body t iter).2 =
      (List.range t).flatMap (fun j => body (iter + j) ++ [.recvTick]) ++
        body (iter + t) := by
  induction t generalizing iter with
  | zero => simp [forTicks]
  | succ t ih =>
    simp only [forTicks, if_true, ih (iter + 1)]
    rw [List.range_succ_eq_map, List.flatMap_cons, List.flatMap_map]
    simp [Nat.add_assoc, Nat.add_comm 1]

/-- An event that every iteration emits `c` times is emitted `(t + 1) * c` times by a ticker loop that is given `t` ticks. -/
theorem forTicks_true_count (e : Event) (body : Nat → List Event) (c : Nat)
    (hbody : ∀ k, (body k).count e = c) (hne : e ≠ .recvTick) (t iter : Nat) :
    (forTicks true body t iter).2.count e = (t + 1) * c := by
  induction t generalizing iter with
  | zero => simp [forTicks, hbody]
  | succ t ih =>
    simp only [forTicks, if_true, List.count_append, ih (iter + 1), hbody]
    have h1 : List.count e [Event.recvTick] = 0 := by
      simp [List.count_cons, Ne.symm hne]
    rw [h1]
    ring

/-- A ticker loop that is given `t` ticks receives `t` ticks. -/
theorem forTicks_true_ticks (body : Nat → List Event)
    (hbody : ∀ k, (body k).count .recvTick = 0) (t iter : Nat) :
    (forTicks true body t iter).2.count .recvTick = t := by
  induction t generalizing iter with
  | zero => simp [forTicks, hbody]
  | succ t ih =>
    simp only [forTicks, if_true, List.count_append, ih (iter + 1), hbody]
    simp [List.count_cons]
    omega

/-- The run of `cycleCheckReport`: the loop is never left. -/
theorem cycleCheckReport_eq (ext : Externals) (observe : Nat → Globals) (N : Nat) :
    cycleCheckReport ext observe N =
      (.awaitingTick,
        [.enter "cycleCheckReport", .newTicker ReportStatusTime] ++
          (forTicks true (cycleBody ext observe) N 0).2) := by
  unfold cycleCheckReport
  simp only [forTicks_true_status]

/-- After `N` ticks `cycleCheckReport` has invoked `CheckReportStatus` `N + 1` times. -/
theorem cycleCheckReport_invocations (ext : Externals) (observe : Nat → Globals) (N : Nat) :
    invocations "CheckReportStatus" (cycleCheckReport ext observe N).2 = N + 1 := by
  rw [cycleCheckReport_eq]
  have hb : ∀ k, (cycleBody ext observe k).count (.enter "CheckReportStatus") = 1 := by
    intro k
    rw [cycleBody_eq]
    exact checkReportStatus_enter_count ext _ _
  have hc := forTicks_true_count (.enter "CheckReportStatus") (cycleBody ext observe) 1 hb
    (by simp) N 0
  simp [invocations, List.count_cons, List.count_append, hc]

/-- The run of `Init`: the configured address is not empty, so `New` and the startup check always run. -/
theorem init_eq (ext : Externals) (g : SignedInfo) (ts : TransactionService) :
    Init ext g ts =
      ⟨(CheckReportStatus ext g ⟨ext.HexToAddress statusHeartAddress, ts⟩).value,
        [.enter "Init", .enter "New", .go cycleGoroutine, .leave "New"] ++
          (CheckReportStatus ext g ⟨ext.HexToAddress statusHeartAddress, ts⟩).trace ++
          [.leave "Init"]⟩ := by
  have hne : ¬ statusHeartAddress = "" := by decide
  unfold Init
  rw [if_neg hne]
  simp only [New]
  cases hc : (CheckReportStatus ext g ⟨ext.HexToAddress statusHeartAddress, ts⟩).value <;>
    simp


/-- A text that `strictHex` accepts holds hexadecimal digits only. -/
theorem strictHex_digits : ∀ (cs : List Char) (b : List Nat),
    strictHex cs = some b → ∀ c ∈ cs, fromHexChar c ≠ none
  | [], _, _ => by simp
  | [_], _, h => by simp [strictHex] at h
  | p :: q :: rest, b, h => by
    unfold strictHex at h
    cases hp : fromHexChar p with
    | none => simp [hp] at h
    | some a =>
      cases hq : fromHexChar q with
      | none => simp [hp, hq] at h
      | some d =>
        cases hr : strictHex rest with
        | none => simp [hp, hq, hr] at h
        | some r =>
          have ih := strictHex_digits rest r hr
          intro c hc
          simp only [List.mem_cons] at hc
          rcases hc with hc | hc | hc
          · rw [hc, hp]; simp
          · rw [hc, hq]; simp
          · exact ih c hc

/-- On a text that `strictHex` accepts, `hex.Decode` returns the same bytes and
no error. -/
theorem hexDecode_of_strictHex : ∀ (cs : List Char) (b : List Nat),
    strictHex cs = some b → hexDecode cs = (b, none)
  | [], b, h => by
    simp [strictHex] at h
    simp [hexDecode, h]
  | [_], _, h => by simp [strictHex] at h
  | p :: q :: rest, b, h => by
    unfold strictHex at h
    cases hp : fromHexChar p with
    | none => simp [hp] at h
    | some a =>
      cases hq : fromHexChar q with
      | none => simp [hp, hq] at h
      | some d =>
        cases hr : strictHex rest with
        | none => simp [hp, hq, hr] at h
        | some r =>
          have ih := hexDecode_of_strictHex rest r hr
          simp [hp, hq, hr] at h
          unfold hexDecode
          simp [hp, hq, ih, h]

/-- A text without the letter x holds no "0x", so `strings.Replace` leaves it
as it is. -/
theorem replaceGo_marker_free (cs : List Char) (h : ∀ c ∈ cs, c ≠ 'x') :
    replaceGo ['0', 'x'] [] 0 cs = cs := by
  induction cs with
  | nil => rfl
  | cons c cs ih =>
    have ih1 := ih (fun d hd => h d (List.mem_cons_of_mem c hd))
    cases cs with
    | nil => simp [replaceGo]
    | cons d cs1 =>
      have hd : d ≠ 'x' := h d (by simp)
      unfold replaceGo
      rw [if_neg, ih1]
      intro hcond
      have h2 := hcond.2
      simp at h2
      exact hd h2.2

/-- For a signature that is valid hexadecimal once its marker is removed, the
decoding `ReportStatus` performs (remove every "0x", then `hex.DecodeString`)
returns the bytes of the signature and no error. -/
theorem hexDecodeString_of_spec (signature : String) (b : List Nat)
    (h : specSignatureBytes signature = some b) :
    hexDecodeString (stringsReplace signature "0x" "") = (b, none) := by
  unfold specSignatureBytes stripMarker at h
  have hx : fromHexChar 'x' = none := by decide
  have hfree : ∀ cs : List Char, (∃ r, strictHex cs = some r) → ∀ c ∈ cs, c ≠ 'x' := by
    intro cs hr c hc hcx
    obtain ⟨r, hr⟩ := hr
    exact strictHex_digits cs r hr c hc (hcx ▸ hx)
  have hdata : ("0x" : String).data = ['0', 'x'] := rfl
  have hnil : ("" : String).data = [] := rfl
  unfold hexDecodeString stringsReplace
  simp only [hdata, hnil]
  by_cases hm : signature.data.take 2 = ['0', 'x']
  · rw [if_pos hm] at h
    have hsplit : signature.data = '0' :: 'x' :: signature.data.drop 2 := by
      conv_lhs => rw [← List.take_append_drop 2 signature.data, hm]
      rfl
    rw [hsplit]
    have hrest := replaceGo_marker_free (signature.data.drop 2) (hfree _ ⟨b, h⟩)
    simp only [replaceGo, List.length_cons, List.take_succ_cons, List.take_zero]
    simp [replaceGo, hrest, hexDecode_of_strictHex _ b h]
  · rw [if_neg hm] at h
    rw [replaceGo_marker_free signature.data (hfree _ ⟨b, h⟩)]
    exact hexDecode_of_strictHex _ b h

/-! ## `ReportStatus` -/

/-- C1: when the Peer of the identity snapshot is the empty string, `ReportStatus`
returns the zero hash and a nil error, and its trace holds no call of `Pack` and
no call of `Send` (it only enters and leaves). -/
theorem reportStatus_skips_empty_peer (ext : Externals) (g : SignedInfo) (s : service)
    (h : g.Peer = "") :
    (ReportStatus ext g s).value = (Hash.zero, none) ∧
    packCalls (ReportStatus ext g s).trace = [] ∧
    sendCalls (ReportStatus ext g s).trace = [] ∧
    (ReportStatus ext g s).trace = [.enter "ReportStatus", .leave "ReportStatus"] := by
  rw [reportStatus_of_empty ext g s h]
  simp [packCalls, sendCalls]

/-- C1 at the unestablished sample identity. -/
theorem reportStatus_skips_empty_peer_witness :
    emptyInfo.Peer = "" ∧
    (ReportStatus sampleExt emptyInfo sampleService).value = (Hash.zero, none) ∧
    packCalls (ReportStatus sampleExt emptyInfo sampleService).trace = [] ∧
    sendCalls (ReportStatus sampleExt emptyInfo sampleService).trace = [] ∧
    (ReportStatus sampleExt emptyInfo sampleService).trace =
      [.enter "ReportStatus", .leave "ReportStatus"] :=
  ⟨rfl, reportStatus_skips_empty_peer sampleExt emptyInfo sampleService rfl⟩

/-- C2 (the code at a malformed signature): the sample identity has a non-empty
Peer and the signature text "0xzz", which `hex.DecodeString` rejects after the
marker is removed; with an encoder and a gateway that succeed, `ReportStatus`
hands the bytes decoded before the error (none) to `Pack`, calls `Send` once and
returns the hash of `Send` with a nil error. -/
theorem reportStatus_malformed_signature_is_submitted :
    malformedInfo.Peer ≠ "" ∧
    hexDecodeString (stringsReplace malformedInfo.Signature "0x" "") =
      ([], some (.invalidByte 'z')) ∧
    (ReportStatus sampleExt malformedInfo sampleService).value = (⟨7⟩, none) ∧
    packCalls (ReportStatus sampleExt malformedInfo sampleService).trace =
      [("reportStatus",
        [.string "p1", .uint32 100, .string "1.0", .uint32 1, .address ⟨[10, 11]⟩,
         .uint32 200, .bytes []])] ∧
    sendCalls (ReportStatus sampleExt malformedInfo sampleService).trace =
      [{ To := ⟨[1, 2]⟩, Data := [1], Value := 0, Description := "Report Heart Status" }] := by
  refine ⟨by decide, by decide, by decide, by decide, by decide⟩

/-- C3: for a snapshot with a non-empty Peer, `ReportStatus` returns an error
exactly when `Pack` returns one, or `Pack` succeeds and `Send` (on the request
built from the payload) returns one; in either case the hash is the zero hash and
the error is the one of the failing collaborator; when `Pack` fails, `Send` is not
called. -/
theorem reportStatus_error_iff (ext : Externals) (g : SignedInfo) (s : service)
    (h : g.Peer ≠ "") :
    ((ReportStatus ext g s).value.2 ≠ none ↔
      ((ext.Pack "reportStatus" (reportArgs ext g)).2 ≠ none ∨
        ((ext.Pack "reportStatus" (reportArgs ext g)).2 = none ∧
          (s.transactionService.Send
            { To := s.statusAddress
              Data := (ext.Pack "reportStatus" (reportArgs ext g)).1
              Value := 0
              Description := "Report Heart Status" }).2 ≠ none))) ∧
    (∀ e, (ext.Pack "reportStatus" (reportArgs ext g)).2 = some e →
      (ReportStatus ext g s).value = (Hash.zero, some e) ∧
      sendCalls (ReportStatus ext g s).trace = []) ∧
    (∀ e, (ext.Pack "reportStatus" (reportArgs ext g)).2 = none →
      (s.transactionService.Send
        { To := s.statusAddress
          Data := (ext.Pack "reportStatus" (reportArgs ext g)).1
          Value := 0
          Description := "Report Heart Status" }).2 = some e →
      (ReportStatus ext g s).value = (Hash.zero, some e)) := by
  cases hp : (ext.Pack "reportStatus" (reportArgs ext g)).2 with
  | some e =>
    rw [reportStatus_of_pack_error ext g s h e hp]
    simp [sendCalls]
  | none =>
    cases hs : (s.transactionService.Send
        { To := s.statusAddress
          Data := (ext.Pack "reportStatus" (reportArgs ext g)).1
          Value := 0
          Description := "Report Heart Status" }).2 with
    | some e =>
      rw [reportStatus_of_send_error ext g s h e hp hs]
      simp
    | none =>
      rw [reportStatus_of_send_ok ext g s h hp hs]
      simp

/-- C3 at the sample identity: a failing encoder, and a rejecting gateway. -/
theorem reportStatus_error_iff_witness :
    sampleInfo.Peer ≠ "" ∧
    ((ReportStatus failingExt sampleInfo sampleService).value =
        (Hash.zero, some ⟨"pack failed"⟩) ∧
      sendCalls (ReportStatus failingExt sampleInfo sampleService).trace = []) ∧
    (ReportStatus sampleExt sampleInfo rejectedService).value =
      (Hash.zero, some ⟨"send failed"⟩) :=
  ⟨by decide,
   (reportStatus_error_iff failingExt sampleInfo sampleService (by decide)).2.1
     ⟨"pack failed"⟩ rfl,
   (reportStatus_error_iff sampleExt sampleInfo rejectedService (by decide)).2.2
     ⟨"send failed"⟩ rfl rfl⟩

/-- C4: for a snapshot with a non-empty Peer whose encoding succeeds,
`ReportStatus` calls `Send` exactly once, with the request whose destination is
the `statusAddress` of the service, whose data is the output of the encoder,
whose value is 0 and whose description is "Report Heart Status"; when that call
returns a hash and a nil error, `ReportStatus` returns this hash and a nil
error. -/
theorem reportStatus_submits_request (ext : Externals) (g : SignedInfo) (s : service)
    (h : g.Peer ≠ "")
    (hp : (ext.Pack "reportStatus" (reportArgs ext g)).2 = none) :
    sendCalls (ReportStatus ext g s).trace =
      [{ To := s.statusAddress
         Data := (ext.Pack "reportStatus" (reportArgs ext g)).1
         Value := 0
         Description := "Report Heart Status" }] ∧
    (∀ txHash,
      s.transactionService.Send
        { To := s.statusAddress
          Data := (ext.Pack "reportStatus" (reportArgs ext g)).1
          Value := 0
          Description := "Report Heart Status" } = (txHash, none) →
      (ReportStatus ext g s).value = (txHash, none)) := by
  cases hs : (s.transactionService.Send
      { To := s.statusAddress
        Data := (ext.Pack "reportStatus" (reportArgs ext g)).1
        Value := 0
        Description := "Report Heart Status" }).2 with
  | some e =>
    rw [reportStatus_of_send_error ext g s h e hp hs]
    refine ⟨by simp [sendCalls], ?_⟩
    intro txHash hsend
    rw [hsend] at hs
    cases hs
  | none =>
    rw [reportStatus_of_send_ok ext g s h hp hs]
    refine ⟨by simp [sendCalls], ?_⟩
    intro txHash hsend
    rw [hsend]

/-- C4 at the sample identity with the accepting gateway. -/
theorem reportStatus_submits_request_witness :
    sampleInfo.Peer ≠ "" ∧
    (sampleExt.Pack "reportStatus" (reportArgs sampleExt sampleInfo)).2 = none ∧
    sendCalls (ReportStatus sampleExt sampleInfo sampleService).trace =
      [{ To := ⟨[1, 2]⟩, Data := [1, 10, 255], Value := 0,
         Description := "Report Heart Status" }] ∧
    (ReportStatus sampleExt sampleInfo sampleService).value = (⟨7⟩, none) :=
  ⟨by decide, rfl,
   (reportStatus_submits_request sampleExt sampleInfo sampleService (by decide) rfl).1,
   (reportStatus_submits_request sampleExt sampleInfo sampleService (by decide) rfl).2
     ⟨7⟩ rfl⟩

/-- For a snapshot with a non-empty Peer, `ReportStatus` calls the encoder exactly
once, with the arguments `reportArgs`. -/
theorem reportStatus_packCalls (ext : Externals) (g : SignedInfo) (s : service)
    (h : g.Peer ≠ "") :
    packCalls (ReportStatus ext g s).trace = [("reportStatus", reportArgs ext g)] := by
  cases hp : (ext.Pack "reportStatus" (reportArgs ext g)).2 with
  | some e =>
    rw [reportStatus_of_pack_error ext g s h e hp]
    simp [packCalls]
  | none =>
    cases hs : (s.transactionService.Send
        { To := s.statusAddress
          Data := (ext.Pack "reportStatus" (reportArgs ext g)).1
          Value := 0
          Description := "Report Heart Status" }).2 with
    | some e =>
      rw [reportStatus_of_send_error ext g s h e hp hs]
      simp [packCalls]
    | none =>
      rw [reportStatus_of_send_ok ext g s h hp hs]
      simp [packCalls]

/-- C5 (counterexample): the identity with Peer "p1" and Signature "0xabc" has a
non-empty Peer and a signature that is not valid hexadecimal (three digits after
the marker), so there are no bytes obtained by hex-decoding it; `ReportStatus`
still calls the encoder, with the single byte 171 decoded before the error as
its seventh argument. -/
theorem reportStatus_pack_call_undecodable :
    oddInfo.Peer ≠ "" ∧
    specSignatureBytes oddInfo.Signature = none ∧
    packCalls (ReportStatus sampleExt oddInfo sampleService).trace =
      [("reportStatus",
        [.string "p1", .uint32 100, .string "1.0", .uint32 1, .address ⟨[10, 11]⟩,
         .uint32 200, .bytes [171]])] ∧
    ¬ ∃ b, specSignatureBytes oddInfo.Signature = some b ∧
      packCalls (ReportStatus sampleExt oddInfo sampleService).trace =
        [("reportStatus",
          [.string oddInfo.Peer, .uint32 oddInfo.CreatedTime, .string oddInfo.Version,
           .uint32 oddInfo.Nonce, .address (sampleExt.HexToAddress oddInfo.BttcAddress),
           .uint32 oddInfo.SignedTime, .bytes b])] := by
  have hnone : specSignatureBytes oddInfo.Signature = none := by decide
  refine ⟨by decide, hnone, by decide, ?_⟩
  rintro ⟨b, hb, _⟩
  rw [hnone] at hb
  cases hb

/-- C5 (amended): for a snapshot with a non-empty Peer whose Signature is valid
hexadecimal once its "0x" marker is removed, `ReportStatus` calls the encoder
exactly once, for the method "reportStatus", with seven arguments in this order:
Peer as a string, CreatedTime as a uint32, Version as a string, Nonce as a
uint32, the address parsed from BttcAddress, SignedTime as a uint32, and as
bytes the hex-decoding of the Signature without its marker. -/
theorem reportStatus_pack_call (ext : Externals) (g : SignedInfo) (s : service)
    (b : List Nat) (h : g.Peer ≠ "") (hsig : specSignatureBytes g.Signature = some b) :
    packCalls (ReportStatus ext g s).trace =
      [("reportStatus",
        [.string g.Peer, .uint32 g.CreatedTime, .string g.Version, .uint32 g.Nonce,
         .address (ext.HexToAddress g.BttcAddress), .uint32 g.SignedTime,
         .bytes b])] := by
  rw [reportStatus_packCalls ext g s h]
  simp [reportArgs, hexDecodeString_of_spec g.Signature b hsig]

/-- C5 (amended) at the sample identity, whose signature "0x0aff" is the two
bytes 10 and 255. -/
theorem reportStatus_pack_call_witness :
    sampleInfo.Peer ≠ "" ∧
    specSignatureBytes sampleInfo.Signature = some [10, 255] ∧
    packCalls (ReportStatus sampleExt sampleInfo sampleService).trace =
      [("reportStatus",
        [.string "p1", .uint32 100, .string "1.0", .uint32 1, .address ⟨[10, 11]⟩,
         .uint32 200, .bytes [10, 255]])] :=
  ⟨by decide, by decide,
   reportStatus_pack_call sampleExt sampleInfo sampleService [10, 255] (by decide)
     (by decide)⟩

/-- C10 (the code at a successful submission): with the sample identity, encoder
and accepting gateway, `ReportStatus` succeeds and starts exactly one goroutine;
that goroutine installs the deferred `recover` handler and has an empty body: it
makes no call and so waits for nothing. -/
theorem reportStatus_goroutine_is_empty :
    (ReportStatus sampleExt sampleInfo sampleService).value = (⟨7⟩, none) ∧
    spawned (ReportStatus sampleExt sampleInfo sampleService).trace =
      [{ deferRecover := true, body := [] }] := by
  refine ⟨by decide, by decide⟩

/-! ## `CheckReportStatus` -/

/-- C9: `CheckReportStatus` returns exactly the error result of `ReportStatus`
(that error when there is one, nil otherwise); its trace is its entry followed by
the trace of one `ReportStatus` call and holds exactly one entry of
`ReportStatus`; with an empty Peer it returns nil. -/
theorem checkReportStatus_returns_report_error (ext : Externals) (g : SignedInfo)
    (s : service) :
    (CheckReportStatus ext g s).value = (ReportStatus ext g s).value.2 ∧
    invocations "ReportStatus" (CheckReportStatus ext g s).trace = 1 ∧
    (∃ post, (CheckReportStatus ext g s).trace =
      Event.enter "CheckReportStatus" :: (ReportStatus ext g s).trace ++ post) ∧
    (CheckReportStatus ext { g with Peer := "" } s).value = none := by
  have hcount := reportStatus_enter_count ext g s
  have hempty : (ReportStatus ext { g with Peer := "" } s).value.2 = none := by
    rw [reportStatus_of_empty ext { g with Peer := "" } s rfl]
  unfold invocations at hcount
  refine ⟨?_, ?_, ?_, ?_⟩
  · cases hr : (ReportStatus ext g s).value.2 with
    | none => rw [checkReportStatus_of_ok ext g s hr]
    | some e => rw [checkReportStatus_of_error ext g s e hr]
  · cases hr : (ReportStatus ext g s).value.2 with
    | none =>
      rw [checkReportStatus_of_ok ext g s hr]
      simp [invocations, List.count_cons, List.count_append, hcount]
    | some e =>
      rw [checkReportStatus_of_error ext g s e hr]
      simp [invocations, List.count_cons, List.count_append, hcount]
  · cases hr : (ReportStatus ext g s).value.2 with
    | none =>
      rw [checkReportStatus_of_ok ext g s hr]
      exact ⟨_, rfl⟩
    | some e =>
      rw [checkReportStatus_of_error ext g s e hr]
      exact ⟨_, rfl⟩
  · rw [checkReportStatus_of_ok ext _ s hempty]

/-! ## The scheduler loop and `Init` -/

/-- C8: for every behaviour of the environment (and so for every sequence of
outcomes of the cycles), once N ticks are delivered `cycleCheckReport` is
blocked in its next receive and has not returned; it has made N + 1, hence at
least N, invocations of `CheckReportStatus`; this number is the same for every
other environment, so it does not depend on whether earlier invocations failed;
and the invocations are made one at a time: the trace is the complete trace of
one invocation after the other, with the receive of a tick between two of
them. -/
theorem cycleCheckReport_never_exits (ext : Externals) (observe : Nat → Globals) (N : Nat) :
    (cycleCheckReport ext observe N).1 = .awaitingTick ∧
    invocations "CheckReportStatus" (cycleCheckReport ext observe N).2 = N + 1 ∧
    N ≤ invocations "CheckReportStatus" (cycleCheckReport ext observe N).2 ∧
    (∀ (ext' : Externals) (observe' : Nat → Globals),
      invocations "CheckReportStatus" (cycleCheckReport ext' observe' N).2 =
        invocations "CheckReportStatus" (cycleCheckReport ext observe N).2) ∧
    (cycleCheckReport ext observe N).2 =
      [.enter "cycleCheckReport", .newTicker 10] ++
        (List.range N).flatMap (fun k =>
          (CheckReportStatus ext (observe k).GSignedInfo (observe k).serv).trace ++
            [.recvTick]) ++
        (CheckReportStatus ext (observe N).GSignedInfo (observe N).serv).trace := by
  refine ⟨?_, cycleCheckReport_invocations ext observe N, ?_, ?_, ?_⟩
  · rw [cycleCheckReport_eq]
  · rw [cycleCheckReport_invocations]
    exact Nat.le_succ N
  · intro ext' observe'
    rw [cycleCheckReport_invocations, cycleCheckReport_invocations]
  · rw [cycleCheckReport_eq]
    simp only [forTicks_true_trace, cycleBody_eq, Nat.zero_add, ReportStatusTime,
      List.append_assoc]

/-- C7 (counterexample): with the sample identity and a gateway that rejects the
request, the startup check fails and `Init` returns its error, yet `Init` has
started the scheduler goroutine, which is blocked waiting for its first tick and
has not returned. -/
theorem init_failure_leaves_scheduler_running :
    (Init sampleExt sampleInfo rejectingGateway).value = some ⟨"send failed"⟩ ∧
    spawned (Init sampleExt sampleInfo rejectingGateway).trace = [cycleGoroutine] ∧
    (cycleCheckReport sampleExt (fun _ => ⟨sampleInfo, rejectedService⟩) 0).1 =
      .awaitingTick := by
  refine ⟨by decide, by decide, by decide⟩

/-- C7 (amended): `Init` starts the scheduler goroutine, in `New`, before it
performs the startup check; whenever the startup `CheckReportStatus` returns an
error, `Init` returns that same error, the only goroutine `Init` has started is
the scheduler, started before the check, and the scheduler never returns: after
any number of ticks it is blocked in its next receive. -/
theorem init_returns_startup_error (ext : Externals) (g : SignedInfo)
    (ts : TransactionService) (e : GoError)
    (h : (CheckReportStatus ext g ⟨ext.HexToAddress statusHeartAddress, ts⟩).value = some e) :
    (Init ext g ts).value = some e ∧
    (Init ext g ts).trace =
      [.enter "Init", .enter "New", .go cycleGoroutine, .leave "New"] ++
        (CheckReportStatus ext g ⟨ext.HexToAddress statusHeartAddress, ts⟩).trace ++
        [.leave "Init"] ∧
    spawned (Init ext g ts).trace = [cycleGoroutine] ∧
    (∀ (observe : Nat → Globals) (ticks : Nat),
      (cycleCheckReport ext observe ticks).1 = .awaitingTick) := by
  have hr : (ReportStatus ext g ⟨ext.HexToAddress statusHeartAddress, ts⟩).value.2 = some e := by
    rw [← checkReportStatus_value]
    exact h
  refine ⟨?_, ?_, ?_, ?_⟩
  · rw [init_eq, h]
  · rw [init_eq]
  · rw [init_eq]
    simp [spawned_append, spawned, checkReportStatus_spawned,
      reportStatus_spawned_of_error ext g _ e hr]
  · intro observe ticks
    rw [cycleCheckReport_eq]

/-- C7 (amended) at the sample identity with a rejecting gateway. -/
theorem init_returns_startup_error_witness :
    (CheckReportStatus sampleExt sampleInfo
      ⟨sampleExt.HexToAddress statusHeartAddress, rejectingGateway⟩).value =
        some ⟨"send failed"⟩ ∧
    (Init sampleExt sampleInfo rejectingGateway).value = some ⟨"send failed"⟩ ∧
    spawned (Init sampleExt sampleInfo rejectingGateway).trace = [cycleGoroutine] :=
  ⟨by decide,
   (init_returns_startup_error sampleExt sampleInfo rejectingGateway ⟨"send failed"⟩
     (by decide)).1,
   (init_returns_startup_error sampleExt sampleInfo rejectingGateway ⟨"send failed"⟩
     (by decide)).2.2.1⟩

/-- C6 (counterexample): with the sample identity and an accepting gateway, and
no tick delivered yet, `CheckReportStatus` has been invoked twice, once by the
caller of `Init` and once by the scheduler goroutine, and two reports have been
handed to `Send`. -/
theorem startup_checks_twice_before_first_tick :
    invocations "CheckReportStatus"
        (startup sampleExt sampleInfo acceptingGateway sampleObserve 0).main +
      invocations "CheckReportStatus"
        (startup sampleExt sampleInfo acceptingGateway sampleObserve 0).scheduler = 2 ∧
    (startup sampleExt sampleInfo acceptingGateway sampleObserve 0).scheduler.count
        .recvTick = 0 ∧
    (sendCalls (startup sampleExt sampleInfo acceptingGateway sampleObserve 0).main).length +
      (sendCalls
        (startup sampleExt sampleInfo acceptingGateway sampleObserve 0).scheduler).length =
        2 := by
  refine ⟨by decide, by decide, by decide⟩

/-- C6 (amended): at startup through `Init`, whatever the identity and the
collaborators, the caller of `Init` invokes `CheckReportStatus` exactly once (the
synchronous startup check) and the scheduler goroutine that `New` started invokes
it once more without waiting for a tick, so before the first tick there are two
invocations; every further invocation of the scheduler follows the receive of a
tick (N + 1 invocations and N receives after N ticks); with a populated identity
whose encoding succeeds, each of the two invocations before the first tick hands
exactly one report to `Send`, two reports in all. -/
theorem startup_invocations (ext : Externals) (g : SignedInfo) (ts : TransactionService)
    (observe : Nat → Globals) :
    (∀ ticks, invocations "CheckReportStatus" (startup ext g ts observe ticks).main = 1) ∧
    (∀ ticks,
      invocations "CheckReportStatus" (startup ext g ts observe ticks).scheduler =
        ticks + 1) ∧
    (∀ ticks, (startup ext g ts observe ticks).scheduler.count .recvTick = ticks) ∧
    invocations "CheckReportStatus" (startup ext g ts observe 0).main +
      invocations "CheckReportStatus" (startup ext g ts observe 0).scheduler = 2 ∧
    (g.Peer ≠ "" → (observe 0).GSignedInfo.Peer ≠ "" →
      (ext.Pack "reportStatus" (reportArgs ext g)).2 = none →
      (ext.Pack "reportStatus" (reportArgs ext (observe 0).GSignedInfo)).2 = none →
      (sendCalls (startup ext g ts observe 0).main).length = 1 ∧
      (sendCalls (startup ext g ts observe 0).scheduler).length = 1 ∧
      (sendCalls (startup ext g ts observe 0).main).length +
        (sendCalls (startup ext g ts observe 0).scheduler).length = 2) := by
  have hmem : cycleGoroutine ∈ spawned (Init ext g ts).trace := by
    rw [init_eq]
    simp [spawned_append, spawned]
  have hsched : ∀ ticks, (startup ext g ts observe ticks).scheduler =
      (cycleCheckReport ext observe ticks).2 := by
    intro ticks
    simp only [startup, if_pos hmem]
  have hmain : ∀ ticks, (startup ext g ts observe ticks).main =
      [.enter "Init", .enter "New", .go cycleGoroutine, .leave "New"] ++
        (CheckReportStatus ext g ⟨ext.HexToAddress statusHeartAddress, ts⟩).trace ++
        [.leave "Init"] := by
    intro ticks
    simp only [startup, init_eq]
  have hc := checkReportStatus_enter_count ext g ⟨ext.HexToAddress statusHeartAddress, ts⟩
  unfold invocations at hc
  have hmaincount : ∀ ticks,
      invocations "CheckReportStatus" (startup ext g ts observe ticks).main = 1 := by
    intro ticks
    rw [hmain]
    simp [invocations, List.count_cons, List.count_append, hc]
  have hticks : ∀ ticks, (startup ext g ts observe ticks).scheduler.count .recvTick = ticks := by
    intro ticks
    rw [hsched, cycleCheckReport_eq]
    have hb : ∀ k, (cycleBody ext observe k).count .recvTick = 0 := by
      intro k
      rw [cycleBody_eq]
      exact checkReportStatus_no_tick ext _ _
    have ht := forTicks_true_ticks (cycleBody ext observe) hb ticks 0
    simp [List.count_cons, List.count_append, ht]
  refine ⟨hmaincount, ?_, hticks, ?_, ?_⟩
  · intro ticks
    rw [hsched, cycleCheckReport_invocations]
  · rw [hmaincount, hsched, cycleCheckReport_invocations]
  · intro hg h0 hpg hp0
    have h1 : (sendCalls (startup ext g ts observe 0).main).length = 1 := by
      rw [hmain]
      simp [sendCalls_append, sendCalls, checkReportStatus_sendCalls,
        reportStatus_sendCalls ext g _ hg hpg]
    have h2 : (sendCalls (startup ext g ts observe 0).scheduler).length = 1 := by
      rw [hsched, cycleCheckReport_eq]
      simp [forTicks, sendCalls_append, sendCalls, cycleBody_eq, checkReportStatus_sendCalls,
        reportStatus_sendCalls ext _ _ h0 hp0]
    exact ⟨h1, h2, by rw [h1, h2]⟩

/-- C6 (amended) at the sample identity with an accepting gateway, where two
reports are sent before the first tick, and at the unestablished identity, where
the two invocations are made all the same. -/
theorem startup_invocations_witness :
    sampleInfo.Peer ≠ "" ∧
    (sampleExt.Pack "reportStatus" (reportArgs sampleExt sampleInfo)).2 = none ∧
    invocations "CheckReportStatus"
        (startup sampleExt sampleInfo acceptingGateway sampleObserve 0).main +
      invocations "CheckReportStatus"
        (startup sampleExt sampleInfo acceptingGateway sampleObserve 0).scheduler = 2 ∧
    (sendCalls (startup sampleExt sampleInfo acceptingGateway sampleObserve 0).main).length +
      (sendCalls
        (startup sampleExt sampleInfo acceptingGateway sampleObserve 0).scheduler).length =
        2 ∧
    invocations "CheckReportStatus"
        (startup sampleExt emptyInfo acceptingGateway
          (fun _ => ⟨emptyInfo, sampleService⟩) 0).main +
      invocations "CheckReportStatus"
        (startup sampleExt emptyInfo acceptingGateway
          (fun _ => ⟨emptyInfo, sampleService⟩) 0).scheduler = 2 :=
  ⟨by decide, rfl,
   (startup_invocations sampleExt sampleInfo acceptingGateway sampleObserve).2.2.2.1,
   ((startup_invocations sampleExt sampleInfo acceptingGateway sampleObserve).2.2.2.2
     (by decide) (by decide) rfl rfl).2.2,
   (startup_invocations sampleExt emptyInfo acceptingGateway
     (fun _ => ⟨emptyInfo, sampleService⟩)).2.2.2.1⟩

end StatusHeart
